import Mathlib

/-!
Verification development for the newsvendor hot-dog Monte Carlo simulator
(`src/config.py`, `src/scenario.py`, `src/game.py`, `src/run_sim.py`).

The Python code is shallowly embedded: machine floats become exact rationals,
Python ints become `Int`, fallible code returns `Except String`.  The only
non-algebraic primitives the code uses — the Mersenne-Twister stream behind
`random.Random(seed)`, `math.exp` inside `lognormvariate`, and `math.sqrt`
inside `statistics.pstdev` — are abstracted as injected functions (`RealOps`);
every theorem quantifies over them, so nothing depends on their concrete shape
beyond what the code itself guarantees.
-/

namespace Hotdogs

/-! ### `src/config.py` — model constants -/

def R_BASE : ℚ := 3/10
def BASE_FILL_RATE : ℚ := 86/100
def A_STD_FRAC : ℚ := 12/100
def MIN_STD : ℚ := 2000
def EPS_SIGMA : ℚ := 1/10
def P_DEFAULT : ℚ := 6
def C_DEFAULT : ℚ := 3/2
def S_DEFAULT : ℚ := 1/4
def P_MIN : ℚ := 1/100
def P_MAX : ℚ := 50
def C_MIN : ℚ := 0
def C_MAX : ℚ := 50
def S_MIN : ℚ := 0
def S_MAX : ℚ := 50
def FIXED_COST_PER_GAME : ℚ := 0
def PROMO_BOOST : ℚ := 103/100
def PLAYOFF_BOOST : ℚ := 6/5
def TEMP_IDEAL_F : ℚ := 65
def TEMP_PENALTY_PER_10F : ℚ := 2/100
def RAIN_PENALTY : ℚ := 9/10
def SNOW_PENALTY : ℚ := 95/100
def TEAM_WIN_BOOST_AT_1 : ℚ := 11/10
def OPPONENT_WIN_BOOST_AT_1 : ℚ := 105/100
def CAPACITY_MIN : ℤ := 25000
def CAPACITY_MAX : ℤ := 100000
def CAPACITY_DEFAULT : ℤ := 60000
def TEMP_MIN_F : ℚ := 0
def TEMP_MAX_F : ℚ := 100
def SEASON_GAMES : ℤ := 20
def REPS_MIN : ℤ := 100
def REPS_MAX : ℤ := 100000
def REPS_DEFAULT : ℤ := 10000
def STADIUM_CAPACITY : ℤ := CAPACITY_DEFAULT

/-! ### `src/scenario.py` — the Scenario record and its validation -/

structure Scenario where
  seed : ℤ := 123
  replications : ℤ := REPS_DEFAULT
  stadium_capacity : ℤ := STADIUM_CAPACITY
  temp_f : ℚ := TEMP_IDEAL_F
  price : ℚ := P_DEFAULT
  cost : ℚ := C_DEFAULT
  salvage : ℚ := S_DEFAULT
  fixed_cost_per_game : ℚ := FIXED_COST_PER_GAME
  team_wins : ℤ := 9
  team_losses : ℤ := 8
  opp_wins : ℤ := 9
  opp_losses : ℤ := 8
  indoor : Bool := false
  rain : Bool := false
  snow : Bool := false
  promo : Bool := false
  playoff : Bool := false
deriving DecidableEq, Repr

/-- Embedding of `Scenario.validate` from `src/scenario.py`.  Every `*_MIN`/`*_MAX` bound is
present in `config.py`, so each `getattr` in the source resolves to the
configured constant and the range branch (not the bare-positivity fallback) is
the one that runs.  The first failing check raises; success returns nothing. -/
def Scenario.validate (sc : Scenario) : Except String Unit :=
  if ¬ (REPS_MIN ≤ sc.replications ∧ sc.replications ≤ REPS_MAX) then
    .error "replications must be between 100 and 100000"
  else if ¬ (CAPACITY_MIN ≤ sc.stadium_capacity ∧ sc.stadium_capacity ≤ CAPACITY_MAX) then
    .error "stadium_capacity must be between 25000 and 100000"
  else if ¬ (TEMP_MIN_F ≤ sc.temp_f ∧ sc.temp_f ≤ TEMP_MAX_F) then
    .error "temp_f must be between 0 and 100"
  else if ¬ (P_MIN ≤ sc.price ∧ sc.price ≤ P_MAX) then
    .error "price must be between 0.01 and 50.0"
  else if ¬ (C_MIN ≤ sc.cost ∧ sc.cost ≤ C_MAX) then
    .error "cost must be between 0.0 and 50.0"
  else if ¬ (S_MIN ≤ sc.salvage ∧ sc.salvage ≤ S_MAX) then
    .error "salvage must be between 0.0 and 50.0"
  else if sc.salvage > sc.cost then
    .error "salvage cannot exceed cost (would create weird incentives)."
  else if sc.price ≤ sc.cost then
    .error "price should be greater than cost (otherwise margin <= 0)."
  else if sc.fixed_cost_per_game < 0 then
    .error "fixed_cost_per_game must be >= 0"
  else if sc.team_wins < 0 ∨ sc.team_losses < 0 then
    .error "team wins/losses must be >= 0"
  else if sc.team_wins > SEASON_GAMES ∨ sc.team_losses > SEASON_GAMES then
    .error "team wins/losses must be <= 20"
  else if sc.team_wins + sc.team_losses > SEASON_GAMES then
    .error "team wins+losses cannot exceed 20"
  else if sc.opp_wins < 0 ∨ sc.opp_losses < 0 then
    .error "opp wins/losses must be >= 0"
  else if sc.opp_wins > SEASON_GAMES ∨ sc.opp_losses > SEASON_GAMES then
    .error "opp wins/losses must be <= 20"
  else if sc.opp_wins + sc.opp_losses > SEASON_GAMES then
    .error "opp wins+losses cannot exceed 20"
  else if sc.rain && sc.snow then
    .error "rain and snow cannot both be True (pick one)."
  else if sc.indoor && (sc.rain || sc.snow) then
    .error "Indoor stadium cannot have rain or snow."
  else .ok ()

/-- Derived property `Scenario.team_win_pct`. -/
def Scenario.team_win_pct (sc : Scenario) : ℚ :=
  let games := sc.team_wins + sc.team_losses
  if games > 0 then (sc.team_wins : ℚ) / (games : ℚ) else 1/2

/-- Derived property `Scenario.opp_win_pct`. -/
def Scenario.opp_win_pct (sc : Scenario) : ℚ :=
  let games := sc.opp_wins + sc.opp_losses
  if games > 0 then (sc.opp_wins : ℚ) / (games : ℚ) else 1/2

/-! ### `src/game.py` — helpers, random draws, demand and profit -/

/-- Embedding of `_clip` from `src/game.py`: `max(lo, min(x, hi))`. -/
def _clip (x lo hi : ℚ) : ℚ := max lo (min x hi)

/-- Embedding of `_win_pct_multiplier` from `src/game.py` (default `min_mult = 0.80`). -/
def _win_pct_multiplier (win_pct boost_at_1 : ℚ) (min_mult : ℚ := 4/5) : ℚ :=
  let slope := boost_at_1 - 1
  let m := 1 + (win_pct - 1/2) * 2 * slope
  max min_mult m

/-- Embedding of `attendance_multiplier` from `src/game.py`. -/
def attendance_multiplier (sc : Scenario) : ℚ :=
  let m : ℚ := 1
  let m := if sc.promo then m * PROMO_BOOST else m
  let m := if sc.playoff then m * PLAYOFF_BOOST else m
  if sc.indoor then m
  else
    let m := if sc.rain then m * RAIN_PENALTY else m
    let m := if sc.snow then m * SNOW_PENALTY else m
    let dist := |sc.temp_f - TEMP_IDEAL_F|
    let tens := dist / 10
    let temp_mult := max (7/10) (1 - TEMP_PENALTY_PER_10F * tens)
    let m := m * temp_mult
    let m := m * _win_pct_multiplier sc.team_win_pct TEAM_WIN_BOOST_AT_1
    let m := m * _win_pct_multiplier sc.opp_win_pct OPPONENT_WIN_BOOST_AT_1 (9/10)
    m

/-- Python's `round` (round-half-to-even, as used by `int(round(x))`). -/
def pyRound (x : ℚ) : ℤ :=
  let f := ⌊x⌋
  let r := x - (f : ℚ)
  if r < 1/2 then f
  else if 1/2 < r then f + 1
  else if Even f then f else f + 1

/-- State of one `random.Random` instance: an abstract stream of the
standard-normal deviates the generator will produce, plus how many draws have
been consumed.  Each call to `gauss`/`normalvariate` consumes the next deviate;
only the call ORDER matters for the theorems below, which is exactly what the
deterministic Mersenne Twister guarantees. -/
structure RNG where
  draws : ℕ → ℚ
  pos : ℕ := 0

/-- Python `rng.gauss(mu, sigma)` = `mu + sigma * z` for the next standard-normal `z`. -/
def RNG.gauss (r : RNG) (mu sigma : ℚ) : ℚ × RNG :=
  (mu + sigma * r.draws r.pos, ⟨r.draws, r.pos + 1⟩)

/-- Python `rng.lognormvariate(mu, sigma)` = `exp(normalvariate(mu, sigma))`;
`rexp` is the injected model of the real exponential. -/
def RNG.lognormvariate (r : RNG) (rexp : ℚ → ℚ) (mu sigma : ℚ) : ℚ × RNG :=
  (rexp (mu + sigma * r.draws r.pos), ⟨r.draws, r.pos + 1⟩)

/-- The non-algebraic primitives the Python runtime supplies: the seeded
deviate stream of `random.Random`, `math.exp`, and `math.sqrt`. -/
structure RealOps where
  entropy : ℤ → ℕ → ℚ
  rexp : ℚ → ℚ
  rsqrt : ℚ → ℚ

/-- Python `random.Random(seed)`: the deviate stream is a function of the seed alone. -/
def RealOps.randomRandom (ops : RealOps) (seed : ℤ) : RNG := ⟨ops.entropy seed, 0⟩

/-- Embedding of `sample_epsilon` from `src/game.py`. -/
def sample_epsilon (ops : RealOps) (rng : RNG) : ℚ × RNG :=
  let sigma := EPS_SIGMA
  let mu := -(1/2) * sigma * sigma
  rng.lognormvariate ops.rexp mu sigma

/-- Embedding of `sample_attendance` from `src/game.py` (note: it calls `sc.validate()`
first, so it fails on an invalid scenario). -/
def sample_attendance (rng : RNG) (sc : Scenario) : Except String (ℤ × RNG) :=
  match sc.validate with
  | .error e => .error e
  | .ok _ =>
    let cap : ℚ := (sc.stadium_capacity : ℚ)
    let mu0 := cap * BASE_FILL_RATE
    let sigma0 := max MIN_STD (mu0 * A_STD_FRAC)
    let mu := mu0 * attendance_multiplier sc
    let ar := rng.gauss mu sigma0
    let a := _clip ar.1 0 cap
    .ok (pyRound a, ar.2)

/-- Embedding of `sample_demand` from `src/game.py`: returns `(D, attendance, eps)`
(with the advanced generator threaded through explicitly). -/
def sample_demand (ops : RealOps) (rng : RNG) (sc : Scenario) :
    Except String (ℤ × ℤ × ℚ × RNG) :=
  match sample_attendance rng sc with
  | .error e => .error e
  | .ok (a, rng1) =>
    let er := sample_epsilon ops rng1
    let d : ℚ := (a : ℚ) * R_BASE * er.1
    let d := max 0 d
    .ok (pyRound d, a, er.1, er.2)

/-- Embedding of `GameResult` from `src/game.py`. -/
structure GameResult where
  Q : ℤ
  D : ℤ
  sold : ℤ
  leftover : ℤ
  revenue : ℚ
  cost : ℚ
  salvage : ℚ
  profit : ℚ
  attendance : ℤ
deriving DecidableEq, Repr

/-- Embedding of `profit_for_game` from `src/game.py`. -/
def profit_for_game (Q D attendance : ℤ) (sc : Scenario) : Except String GameResult :=
  if Q < 0 then .error "Q must be >= 0"
  else if D < 0 then .error "D must be >= 0"
  else
    let sold := min Q D
    let leftover := max (Q - D) 0
    let p := sc.price
    let c := sc.cost
    let s := sc.salvage
    let fixed := sc.fixed_cost_per_game
    let revenue := p * (sold : ℚ)
    let cost := c * (Q : ℚ)
    let salvage := s * (leftover : ℚ)
    let profit := revenue - cost + salvage - fixed
    .ok ⟨Q, D, sold, leftover, revenue, cost, salvage, profit, attendance⟩

/-! ### `src/run_sim.py` — Monte Carlo driver and grid evaluator -/

/-- Python `statistics.mean`. -/
def mean (xs : List ℚ) : ℚ := xs.sum / (xs.length : ℚ)

/-- Population variance, the square of `statistics.pstdev`. -/
def pvariance (xs : List ℚ) : ℚ :=
  ((xs.map fun x => (x - mean xs) ^ 2).sum) / (xs.length : ℚ)

/-- Python `min` over a list (total here; `simulate_many` only applies it to
nonempty lists since it checks `n > 0` first). -/
def listMin : List ℚ → ℚ
  | [] => 0
  | x :: xs => xs.foldl min x

/-- Python `max` over a list. -/
def listMax : List ℚ → ℚ
  | [] => 0
  | x :: xs => xs.foldl max x

/-- A value stored in the summary dict returned by `simulate_many`. -/
inductive SVal where
  | int (n : ℤ)
  | rat (x : ℚ)
  | tr (profit : List ℚ) (demand : List ℤ) (attendance : List ℤ) (eps : List ℚ)
deriving DecidableEq, Repr

/-- The summary dict, modelled as its key/value pairs in insertion order
(Python dicts preserve insertion order). -/
abbrev Summary := List (String × SVal)

/-- The per-trial loop body of `simulate_many`: run `k` trials, returning each
trial's `GameResult` paired with its epsilon, in trial order. -/
def runTrials (ops : RealOps) (Q : ℤ) (sc : Scenario) :
    ℕ → RNG → Except String (List (GameResult × ℚ))
  | 0, _ => .ok []
  | k + 1, rng =>
    match sample_demand ops rng sc with
    | .error e => .error e
    | .ok (D, a, eps, rng') =>
      match profit_for_game Q D a sc with
      | .error e => .error e
      | .ok res =>
        match runTrials ops Q sc k rng' with
        | .error e => .error e
        | .ok rest => .ok ((res, eps) :: rest)

/-- The `out` dict built by `simulate_many` (its sixteen always-present
entries, in insertion order: the twelve statistics then the four echoed
economic parameters added by `out.update`). -/
def mkOut (ops : RealOps) (Q n seed : ℤ) (sc : Scenario)
    (trials : List (GameResult × ℚ)) : Summary :=
  let profits : List ℚ := trials.map fun t => t.1.profit
  let demands : List ℤ := trials.map fun t => t.1.D
  let solds : List ℤ := trials.map fun t => t.1.sold
  let leftovers : List ℤ := trials.map fun t => t.1.leftover
  let attendances : List ℤ := trials.map fun t => t.1.attendance
  let stockouts : ℤ := ((trials.filter fun t => t.1.D > Q).length : ℤ)
  [("Q", .int Q),
   ("n games", .int n),
   ("seed", .int seed),
   ("avg_profit", .rat (mean profits)),
   ("sd_profit", .rat (ops.rsqrt (pvariance profits))),
   ("min_profit", .rat (listMin profits)),
   ("max_profit", .rat (listMax profits)),
   ("avg_attendance", .rat (mean (attendances.map fun a => (a : ℚ)))),
   ("avg_demand", .rat (mean (demands.map fun d => (d : ℚ)))),
   ("avg_sold", .rat (mean (solds.map fun s => (s : ℚ)))),
   ("avg_leftover", .rat (mean (leftovers.map fun l => (l : ℚ)))),
   ("stockout_rate", .rat ((stockouts : ℚ) / (n : ℚ))),
   ("price", .rat sc.price),
   ("cost", .rat sc.cost),
   ("salvage", .rat sc.salvage),
   ("fixed_cost_per_game", .rat sc.fixed_cost_per_game)]

/-- The `traces` entry of the summary: per-trial profit, demand, attendance
and eps series, in trial order. -/
def mkTraces (trials : List (GameResult × ℚ)) : SVal :=
  .tr (trials.map fun t => t.1.profit) (trials.map fun t => t.1.D)
    (trials.map fun t => t.1.attendance) (trials.map fun t => t.2)

/-- Embedding of `simulate_many` from `src/run_sim.py`. -/
def simulate_many (ops : RealOps) (Q : ℤ) (sc : Scenario)
    (n : Option ℤ := none) (seed : Option ℤ := none)
    (return_traces : Bool := false) : Except String Summary :=
  match sc.validate with
  | .error e => .error e
  | .ok _ =>
    let n := n.getD sc.replications
    let seed := seed.getD sc.seed
    if n ≤ 0 then .error "n/replications must be > 0"
    else if Q < 0 then .error "Q must be >= 0"
    else
      let rng := ops.randomRandom seed
      match runTrials ops Q sc n.toNat rng with
      | .error e => .error e
      | .ok trials =>
        if return_traces then
          .ok (mkOut ops Q n seed sc trials ++ [("traces", mkTraces trials)])
        else .ok (mkOut ops Q n seed sc trials)

/-- Embedding of `evaluate_grid` from `src/run_sim.py`: one `simulate_many` per Q, in input
order, each re-seeded from the same shared seed (common random numbers).  The
Python list comprehension evaluates left to right and propagates the first
raised error, which is exactly this recursion. -/
def evaluate_grid (ops : RealOps) (Q_values : List ℤ) (sc : Scenario)
    (n : Option ℤ := none) (seed : Option ℤ := none) : Except String (List Summary) :=
  match Q_values with
  | [] => .ok []
  | Q :: rest =>
    match simulate_many ops Q sc n seed with
    | .error e => .error e
    | .ok s =>
      match evaluate_grid ops rest sc n seed with
      | .error e => .error e
      | .ok l => .ok (s :: l)

/-! ### Spec-side definitions (for the refinement claims) and test fixtures -/

/-- The invariants of spec §3, by name. -/
inductive SpecInvariant where
  | rangeReplications | rangeCapacity | rangeTemp | rangePrice | rangeCost | rangeSalvage
  | salvageLeCost | priceGtCost | fixedNonneg | teamRecord | oppRecord | rainSnow | indoorWeather
deriving DecidableEq, Repr

/-- Spec-side description, written from the words of spec §3: the first violated
invariant, in the order §3 lists them (range checks on the bounded numeric
fields, then salvage ≤ cost, price > cost, fixed cost ≥ 0, the two team-record
constraints, and the weather exclusions). -/
def specFirstViolation (sc : Scenario) : Option SpecInvariant :=
  if ¬ (REPS_MIN ≤ sc.replications ∧ sc.replications ≤ REPS_MAX) then some .rangeReplications
  else if ¬ (CAPACITY_MIN ≤ sc.stadium_capacity ∧ sc.stadium_capacity ≤ CAPACITY_MAX) then
    some .rangeCapacity
  else if ¬ (TEMP_MIN_F ≤ sc.temp_f ∧ sc.temp_f ≤ TEMP_MAX_F) then some .rangeTemp
  else if ¬ (P_MIN ≤ sc.price ∧ sc.price ≤ P_MAX) then some .rangePrice
  else if ¬ (C_MIN ≤ sc.cost ∧ sc.cost ≤ C_MAX) then some .rangeCost
  else if ¬ (S_MIN ≤ sc.salvage ∧ sc.salvage ≤ S_MAX) then some .rangeSalvage
  else if sc.salvage > sc.cost then some .salvageLeCost
  else if sc.price ≤ sc.cost then some .priceGtCost
  else if sc.fixed_cost_per_game < 0 then some .fixedNonneg
  else if ¬ (0 ≤ sc.team_wins ∧ 0 ≤ sc.team_losses ∧
      sc.team_wins + sc.team_losses ≤ SEASON_GAMES) then some .teamRecord
  else if ¬ (0 ≤ sc.opp_wins ∧ 0 ≤ sc.opp_losses ∧
      sc.opp_wins + sc.opp_losses ≤ SEASON_GAMES) then some .oppRecord
  else if sc.rain && sc.snow then some .rainSnow
  else if sc.indoor && (sc.rain || sc.snow) then some .indoorWeather
  else none

/-- Whether an error message raised by `Scenario.validate` names the given
spec-§3 invariant. -/
def identifies (m : String) : SpecInvariant → Bool
  | .rangeReplications => m == "replications must be between 100 and 100000"
  | .rangeCapacity => m == "stadium_capacity must be between 25000 and 100000"
  | .rangeTemp => m == "temp_f must be between 0 and 100"
  | .rangePrice => m == "price must be between 0.01 and 50.0"
  | .rangeCost => m == "cost must be between 0.0 and 50.0"
  | .rangeSalvage => m == "salvage must be between 0.0 and 50.0"
  | .salvageLeCost => m == "salvage cannot exceed cost (would create weird incentives)."
  | .priceGtCost => m == "price should be greater than cost (otherwise margin <= 0)."
  | .fixedNonneg => m == "fixed_cost_per_game must be >= 0"
  | .teamRecord => m == "team wins/losses must be >= 0" ||
      m == "team wins/losses must be <= 20" || m == "team wins+losses cannot exceed 20"
  | .oppRecord => m == "opp wins/losses must be >= 0" ||
      m == "opp wins/losses must be <= 20" || m == "opp wins+losses cannot exceed 20"
  | .rainSnow => m == "rain and snow cannot both be True (pick one)."
  | .indoorWeather => m == "Indoor stadium cannot have rain or snow."

/-- Agreement between the outcome of `validate` and the spec-side first
violated invariant: success matches "no violation", an error must name the
first violated invariant. -/
def agrees : Except String Unit → Option SpecInvariant → Bool
  | .ok _, none => true
  | .error m, some inv => identifies m inv
  | _, _ => false

/-- The per-trial attendance trace of a summary, if present. -/
def tracesAttendance (s : Summary) : Option (List ℤ) :=
  match s.lookup "traces" with
  | some (.tr _ _ a _) => some a
  | _ => none

/-- The per-trial eps (noise) trace of a summary, if present. -/
def tracesEps (s : Summary) : Option (List ℚ) :=
  match s.lookup "traces" with
  | some (.tr _ _ _ e) => some e
  | _ => none

/-- The lengths of the four per-trial series in a summary's traces entry, if
present. -/
def tracesLengths (s : Summary) : Option (ℕ × ℕ × ℕ × ℕ) :=
  match s.lookup "traces" with
  | some (.tr p d a e) => some (p.length, d.length, a.length, e.length)
  | _ => none

/-- Concrete instantiation of the runtime primitives, used by the witnesses:
a deviate stream that is constantly 0, `exp` constantly 1 (positive, as the
real exponential is), `sqrt` constantly 0. -/
def ops0 : RealOps := ⟨fun _ _ => 0, fun _ => 1, fun _ => 0⟩

/-- A fresh generator with the all-zero deviate stream. -/
def rng0 : RNG := ⟨fun _ => 0, 0⟩

/-- A valid scenario with both records at .500, used by the witnesses (its
attendance multiplier is exactly 1, so every quantity evaluates in closed
form: attendance 51600, demand 15480, eps 1). -/
def sc_w : Scenario :=
  { team_wins := 8, team_losses := 8, opp_wins := 8, opp_losses := 8 }

/-- An indoor scenario whose stored temperature is 30°F, not the 65°F ideal. -/
def scIndoor30 : Scenario := { indoor := true, temp_f := 30 }

/-- The summary produced by `simulate_many ops0 0 sc_w (some 1) (some 0) true`,
written out literally (used by the C7 witness). -/
def wit_summary : Summary :=
  [("Q", .int 0), ("n games", .int 1), ("seed", .int 0),
   ("avg_profit", .rat 0), ("sd_profit", .rat 0), ("min_profit", .rat 0),
   ("max_profit", .rat 0), ("avg_attendance", .rat 51600), ("avg_demand", .rat 15480),
   ("avg_sold", .rat 0), ("avg_leftover", .rat 0), ("stockout_rate", .rat 1),
   ("price", .rat 6), ("cost", .rat (3/2)), ("salvage", .rat (1/4)),
   ("fixed_cost_per_game", .rat 0), ("traces", .tr [0] [15480] [51600] [1])]

/-- The summary produced by `simulate_many ops0 5 sc_w (some 1) (some 0)`
(no traces), written out literally (used by the C8 witness). -/
def wit_summary5 : Summary :=
  [("Q", .int 5), ("n games", .int 1), ("seed", .int 0),
   ("avg_profit", .rat (45/2)), ("sd_profit", .rat 0), ("min_profit", .rat (45/2)),
   ("max_profit", .rat (45/2)), ("avg_attendance", .rat 51600), ("avg_demand", .rat 15480),
   ("avg_sold", .rat 5), ("avg_leftover", .rat 0), ("stockout_rate", .rat 1),
   ("price", .rat 6), ("cost", .rat (3/2)), ("salvage", .rat (1/4)),
   ("fixed_cost_per_game", .rat 0)]

/-- Proof-side description of the demand-side samples (demand, attendance,
eps) the trial loop draws: a function of the scenario, the draw stream and the
trial count only — the order quantity does not appear.  Used to state and
prove the common-random-numbers property. -/
def demandTrace (ops : RealOps) (sc : Scenario) : ℕ → RNG → List (ℤ × ℤ × ℚ)
  | 0, _ => []
  | k + 1, rng =>
    match sample_demand ops rng sc with
    | .error _ => []
    | .ok (d, a, e, r') => (d, a, e) :: demandTrace ops sc k r'

/-! ### Helper lemmas -/

/-- Rounding a nonnegative rational is nonnegative. -/
theorem pyRound_nonneg {x : ℚ} (hx : 0 ≤ x) : 0 ≤ pyRound x := by
  have hf : (0 : ℤ) ≤ ⌊x⌋ := Int.floor_nonneg.mpr hx
  simp only [pyRound]
  split_ifs <;> omega

/-- Rounding cannot overshoot an integer upper bound. -/
theorem pyRound_le {x : ℚ} {c : ℤ} (hx : x ≤ (c : ℚ)) : pyRound x ≤ c := by
  have hfc : ⌊x⌋ ≤ c := by
    have h := Int.floor_le_floor hx
    simpa using h
  have hlt : (1 : ℚ)/2 ≤ x - (⌊x⌋ : ℚ) → ⌊x⌋ < c := by
    intro h
    have h1 : (⌊x⌋ : ℚ) < x := by linarith
    have h2 : (⌊x⌋ : ℚ) < (c : ℚ) := lt_of_lt_of_le h1 hx
    exact_mod_cast h2
  simp only [pyRound]
  split_ifs with h1 h2 h3
  · exact hfc
  · have := hlt (le_of_lt h2); omega
  · exact hfc
  · have := hlt (le_of_not_lt h1); omega

/-- Rounding fixes zero. -/
theorem pyRound_zero : pyRound 0 = 0 := by norm_num [pyRound]

/-- Rounding commutes with flooring at zero, so `round` then clamp equals
clamp then `round` (the code clamps first; the spec states it clamp-last). -/
theorem pyRound_max_zero (x : ℚ) : pyRound (max 0 x) = max 0 (pyRound x) := by
  rcases le_total 0 x with h | h
  · rw [max_eq_right h, max_eq_right (pyRound_nonneg h)]
  · have hr : pyRound x ≤ 0 := pyRound_le (by exact_mod_cast h)
    rw [max_eq_left h, max_eq_left hr]
    exact pyRound_zero

/-- A scenario that validates has its capacity inside the configured range. -/
theorem validate_ok_cap {sc : Scenario} (h : sc.validate = .ok ()) :
    CAPACITY_MIN ≤ sc.stadium_capacity ∧ sc.stadium_capacity ≤ CAPACITY_MAX := by
  unfold Scenario.validate at h
  by_cases h1 : ¬ (REPS_MIN ≤ sc.replications ∧ sc.replications ≤ REPS_MAX)
  · rw [if_pos h1] at h; exact Except.noConfusion h
  rw [if_neg h1] at h
  by_cases h2 : ¬ (CAPACITY_MIN ≤ sc.stadium_capacity ∧ sc.stadium_capacity ≤ CAPACITY_MAX)
  · rw [if_pos h2] at h; exact Except.noConfusion h
  exact not_not.mp h2

/-- Agreement of `validate` with the spec-§3 first-violated-invariant
description, for every scenario. -/
theorem validate_agrees (sc : Scenario) :
    agrees sc.validate (specFirstViolation sc) = true := by
  unfold Scenario.validate specFirstViolation
  by_cases h1 : ¬ (REPS_MIN ≤ sc.replications ∧ sc.replications ≤ REPS_MAX)
  · rw [if_pos h1, if_pos h1]; rfl
  rw [if_neg h1, if_neg h1]
  by_cases h2 : ¬ (CAPACITY_MIN ≤ sc.stadium_capacity ∧ sc.stadium_capacity ≤ CAPACITY_MAX)
  · rw [if_pos h2, if_pos h2]; rfl
  rw [if_neg h2, if_neg h2]
  by_cases h3 : ¬ (TEMP_MIN_F ≤ sc.temp_f ∧ sc.temp_f ≤ TEMP_MAX_F)
  · rw [if_pos h3, if_pos h3]; rfl
  rw [if_neg h3, if_neg h3]
  by_cases h4 : ¬ (P_MIN ≤ sc.price ∧ sc.price ≤ P_MAX)
  · rw [if_pos h4, if_pos h4]; rfl
  rw [if_neg h4, if_neg h4]
  by_cases h5 : ¬ (C_MIN ≤ sc.cost ∧ sc.cost ≤ C_MAX)
  · rw [if_pos h5, if_pos h5]; rfl
  rw [if_neg h5, if_neg h5]
  by_cases h6 : ¬ (S_MIN ≤ sc.salvage ∧ sc.salvage ≤ S_MAX)
  · rw [if_pos h6, if_pos h6]; rfl
  rw [if_neg h6, if_neg h6]
  by_cases h7 : sc.salvage > sc.cost
  · rw [if_pos h7, if_pos h7]; rfl
  rw [if_neg h7, if_neg h7]
  by_cases h8 : sc.price ≤ sc.cost
  · rw [if_pos h8, if_pos h8]; rfl
  rw [if_neg h8, if_neg h8]
  by_cases h9 : sc.fixed_cost_per_game < 0
  · rw [if_pos h9, if_pos h9]; rfl
  rw [if_neg h9, if_neg h9]
  by_cases t1 : sc.team_wins < 0 ∨ sc.team_losses < 0
  · have hs : ¬ (0 ≤ sc.team_wins ∧ 0 ≤ sc.team_losses ∧
        sc.team_wins + sc.team_losses ≤ SEASON_GAMES) := by omega
    rw [if_pos t1, if_pos hs]; rfl
  rw [if_neg t1]
  by_cases t2 : sc.team_wins > SEASON_GAMES ∨ sc.team_losses > SEASON_GAMES
  · have hs : ¬ (0 ≤ sc.team_wins ∧ 0 ≤ sc.team_losses ∧
        sc.team_wins + sc.team_losses ≤ SEASON_GAMES) := by omega
    rw [if_pos t2, if_pos hs]; rfl
  rw [if_neg t2]
  by_cases t3 : sc.team_wins + sc.team_losses > SEASON_GAMES
  · have hs : ¬ (0 ≤ sc.team_wins ∧ 0 ≤ sc.team_losses ∧
        sc.team_wins + sc.team_losses ≤ SEASON_GAMES) := by omega
    rw [if_pos t3, if_pos hs]; rfl
  rw [if_neg t3]
  have hsteam : ¬ ¬ (0 ≤ sc.team_wins ∧ 0 ≤ sc.team_losses ∧
      sc.team_wins + sc.team_losses ≤ SEASON_GAMES) := by omega
  rw [if_neg hsteam]
  by_cases o1 : sc.opp_wins < 0 ∨ sc.opp_losses < 0
  · have hs : ¬ (0 ≤ sc.opp_wins ∧ 0 ≤ sc.opp_losses ∧
        sc.opp_wins + sc.opp_losses ≤ SEASON_GAMES) := by omega
    rw [if_pos o1, if_pos hs]; rfl
  rw [if_neg o1]
  by_cases o2 : sc.opp_wins > SEASON_GAMES ∨ sc.opp_losses > SEASON_GAMES
  · have hs : ¬ (0 ≤ sc.opp_wins ∧ 0 ≤ sc.opp_losses ∧
        sc.opp_wins + sc.opp_losses ≤ SEASON_GAMES) := by omega
    rw [if_pos o2, if_pos hs]; rfl
  rw [if_neg o2]
  by_cases o3 : sc.opp_wins + sc.opp_losses > SEASON_GAMES
  · have hs : ¬ (0 ≤ sc.opp_wins ∧ 0 ≤ sc.opp_losses ∧
        sc.opp_wins + sc.opp_losses ≤ SEASON_GAMES) := by omega
    rw [if_pos o3, if_pos hs]; rfl
  rw [if_neg o3]
  have hsopp : ¬ ¬ (0 ≤ sc.opp_wins ∧ 0 ≤ sc.opp_losses ∧
      sc.opp_wins + sc.opp_losses ≤ SEASON_GAMES) := by omega
  rw [if_neg hsopp]
  by_cases w1 : (sc.rain && sc.snow) = true
  · rw [if_pos w1, if_pos w1]; rfl
  rw [if_neg w1, if_neg w1]
  by_cases w2 : (sc.indoor && (sc.rain || sc.snow)) = true
  · rw [if_pos w2, if_pos w2]; rfl
  rw [if_neg w2, if_neg w2]
  rfl

/-- With nonnegative order quantity and demand, `profit_for_game` succeeds and
returns exactly the newsvendor formula values. -/
theorem profit_for_game_ok (Q D att : ℤ) (sc : Scenario) (hQ : 0 ≤ Q) (hD : 0 ≤ D) :
    profit_for_game Q D att sc = .ok
      { Q := Q, D := D, sold := min Q D, leftover := max (Q - D) 0,
        revenue := sc.price * ((min Q D : ℤ) : ℚ), cost := sc.cost * (Q : ℚ),
        salvage := sc.salvage * ((max (Q - D) 0 : ℤ) : ℚ),
        profit := sc.price * ((min Q D : ℤ) : ℚ) - sc.cost * (Q : ℚ) +
          sc.salvage * ((max (Q - D) 0 : ℤ) : ℚ) - sc.fixed_cost_per_game,
        attendance := att } := by
  unfold profit_for_game
  rw [if_neg (not_lt.mpr hQ), if_neg (not_lt.mpr hD)]

/-- A successful `profit_for_game` echoes its demand and attendance inputs. -/
theorem profit_for_game_D_att {Q D att : ℤ} {sc : Scenario} {r : GameResult}
    (h : profit_for_game Q D att sc = .ok r) : r.D = D ∧ r.attendance = att := by
  unfold profit_for_game at h
  by_cases hQ : Q < 0
  · rw [if_pos hQ] at h; exact Except.noConfusion h
  rw [if_neg hQ] at h
  by_cases hD : D < 0
  · rw [if_pos hD] at h; exact Except.noConfusion h
  rw [if_neg hD] at h
  injection h with h
  subst h
  exact ⟨rfl, rfl⟩

/-- On a valid scenario, `sample_demand` always succeeds, with a nonnegative
demand. -/
theorem sample_demand_of_valid (ops : RealOps) (rng : RNG) (sc : Scenario)
    (hv : sc.validate = .ok ()) :
    ∃ (d a : ℤ) (e : ℚ) (r' : RNG),
      sample_demand ops rng sc = .ok (d, a, e, r') ∧ 0 ≤ d := by
  unfold sample_demand sample_attendance
  rw [hv]
  exact ⟨_, _, _, _, rfl, pyRound_nonneg (le_max_left _ _)⟩

/-- A successful trial loop returns one entry per trial. -/
theorem runTrials_length (ops : RealOps) (Q : ℤ) (sc : Scenario) :
    ∀ (k : ℕ) (rng : RNG) (l : List (GameResult × ℚ)),
      runTrials ops Q sc k rng = .ok l → l.length = k := by
  intro k
  induction k with
  | zero =>
    intro rng l h
    unfold runTrials at h
    injection h with h
    subst h
    rfl
  | succ k ih =>
    intro rng l h
    unfold runTrials at h
    split at h
    · exact Except.noConfusion h
    split at h
    · exact Except.noConfusion h
    split at h
    · exact Except.noConfusion h
    rename_i rest hr
    injection h with h
    subst h
    simp [ih _ rest hr]

/-- On a valid scenario with a nonnegative Q, the trial loop succeeds. -/
theorem runTrials_ok_of_valid (ops : RealOps) (Q : ℤ) (sc : Scenario)
    (hQ : 0 ≤ Q) (hv : sc.validate = .ok ()) :
    ∀ (k : ℕ) (rng : RNG), ∃ l, runTrials ops Q sc k rng = .ok l := by
  intro k
  induction k with
  | zero => intro rng; exact ⟨[], rfl⟩
  | succ k ih =>
    intro rng
    obtain ⟨d, a, e, r', hsd, hd⟩ := sample_demand_of_valid ops rng sc hv
    obtain ⟨l, hl⟩ := ih r'
    obtain ⟨res, hres⟩ : ∃ r, profit_for_game Q d a sc = .ok r :=
      ⟨_, profit_for_game_ok Q d a sc hQ hd⟩
    refine ⟨(res, e) :: l, ?_⟩
    unfold runTrials
    simp only [hsd, hres, hl]

/-- A successful trial run's demand-side projections equal the Q-free
`demandTrace`. -/
theorem runTrials_proj (ops : RealOps) (Q : ℤ) (sc : Scenario) :
    ∀ (k : ℕ) (rng : RNG) (l : List (GameResult × ℚ)),
      runTrials ops Q sc k rng = .ok l →
      l.map (fun t => (t.1.D, t.1.attendance, t.2)) = demandTrace ops sc k rng := by
  intro k
  induction k with
  | zero =>
    intro rng l h
    unfold runTrials at h
    injection h with h
    subst h
    rfl
  | succ k ih =>
    intro rng l h
    unfold runTrials at h
    split at h
    · exact Except.noConfusion h
    rename_i d a e r' heq
    split at h
    · exact Except.noConfusion h
    rename_i res hp
    split at h
    · exact Except.noConfusion h
    rename_i rest hr
    injection h with h
    subst h
    obtain ⟨hD, hA⟩ := profit_for_game_D_att hp
    simp only [demandTrace, heq, List.map_cons, hD, hA, ih r' rest hr]

/-- The demand/attendance/eps projections of the trial list do not depend on
the order quantity: both runs consume the identical draw stream. -/
theorem runTrials_map_eq (ops : RealOps) (Q₁ Q₂ : ℤ) (sc : Scenario)
    (k : ℕ) (rng : RNG) (l₁ l₂ : List (GameResult × ℚ))
    (h₁ : runTrials ops Q₁ sc k rng = .ok l₁)
    (h₂ : runTrials ops Q₂ sc k rng = .ok l₂) :
    l₁.map (fun t => (t.1.D, t.1.attendance, t.2)) =
      l₂.map (fun t => (t.1.D, t.1.attendance, t.2)) := by
  rw [runTrials_proj ops Q₁ sc k rng l₁ h₁, runTrials_proj ops Q₂ sc k rng l₂ h₂]

/-- Looking up the traces entry appended after trace-free keys. -/
theorem lookup_traces_append (xs : List (String × SVal)) (v : SVal)
    (hx : "traces" ∉ xs.map Prod.fst) :
    (xs ++ [("traces", v)]).lookup "traces" = some v := by
  induction xs with
  | nil => rfl
  | cons hd tl ih =>
    obtain ⟨k, b⟩ := hd
    simp only [List.map_cons, List.mem_cons, not_or] at hx
    obtain ⟨h1, h2⟩ := hx
    simp only [List.cons_append, List.lookup]
    rw [beq_eq_false_iff_ne.mpr h1]
    exact ih h2

/-- The sixteen keys of the always-present summary entries, in order. -/
theorem mkOut_keys (ops : RealOps) (Q n seed : ℤ) (sc : Scenario)
    (trials : List (GameResult × ℚ)) :
    (mkOut ops Q n seed sc trials).map Prod.fst =
      ["Q", "n games", "seed", "avg_profit", "sd_profit", "min_profit", "max_profit",
       "avg_attendance", "avg_demand", "avg_sold", "avg_leftover", "stockout_rate",
       "price", "cost", "salvage", "fixed_cost_per_game"] := rfl

/-- The first summary entry is the order quantity. -/
theorem mkOut_lookup_Q (ops : RealOps) (Q n seed : ℤ) (sc : Scenario)
    (trials : List (GameResult × ℚ)) :
    (mkOut ops Q n seed sc trials).lookup "Q" = some (.int Q) := rfl

/-- Anatomy of a successful `simulate_many` call: some trial list succeeded,
and the summary is the sixteen-entry dict, plus the traces entry when they
were requested. -/
theorem simulate_many_shape (ops : RealOps) (Q : ℤ) (sc : Scenario)
    (n seed : Option ℤ) (rt : Bool) (s : Summary)
    (h : simulate_many ops Q sc n seed rt = .ok s) :
    ∃ l, runTrials ops Q sc (n.getD sc.replications).toNat
        (ops.randomRandom (seed.getD sc.seed)) = .ok l ∧
      s = mkOut ops Q (n.getD sc.replications) (seed.getD sc.seed) sc l ++
        (if rt then [("traces", mkTraces l)] else []) := by
  unfold simulate_many at h
  split at h
  · exact Except.noConfusion h
  simp only [] at h
  by_cases hn : n.getD sc.replications ≤ 0
  · rw [if_pos hn] at h; exact Except.noConfusion h
  rw [if_neg hn] at h
  by_cases hQ : Q < 0
  · rw [if_pos hQ] at h; exact Except.noConfusion h
  rw [if_neg hQ] at h
  split at h
  · exact Except.noConfusion h
  rename_i trials htr
  by_cases hrt : rt = true
  · rw [if_pos hrt] at h
    injection h with h
    subst h
    exact ⟨trials, htr, by rw [if_pos hrt]⟩
  · rw [if_neg hrt] at h
    injection h with h
    subst h
    exact ⟨trials, htr, by rw [if_neg hrt, List.append_nil]⟩

/-- A successful summary's Q entry is the order quantity it was called with. -/
theorem simulate_many_lookup_Q {ops : RealOps} {Q : ℤ} {sc : Scenario}
    {n seed : Option ℤ} {rt : Bool} {s : Summary}
    (h : simulate_many ops Q sc n seed rt = .ok s) :
    s.lookup "Q" = some (.int Q) := by
  obtain ⟨l, -, hs⟩ := simulate_many_shape ops Q sc n seed rt s h
  subst hs
  by_cases hrt : rt = true
  · rw [if_pos hrt]; rfl
  · rw [if_neg hrt]; rfl

/-- The trace lists of a successful traced `simulate_many` call are the
per-trial attendance and eps projections of its trial list. -/
theorem simulate_many_traces (ops : RealOps) (Q : ℤ) (sc : Scenario)
    (n seed : Option ℤ) (s : Summary)
    (h : simulate_many ops Q sc n seed true = .ok s) :
    ∃ l, runTrials ops Q sc (n.getD sc.replications).toNat
        (ops.randomRandom (seed.getD sc.seed)) = .ok l ∧
      tracesAttendance s = some (l.map fun t => t.1.attendance) ∧
      tracesEps s = some (l.map fun t => t.2) := by
  obtain ⟨l, htr, hs⟩ := simulate_many_shape ops Q sc n seed true s h
  subst hs
  rw [if_pos rfl]
  have hkeys : "traces" ∉
      (mkOut ops Q (n.getD sc.replications) (seed.getD sc.seed) sc l).map Prod.fst := by
    rw [mkOut_keys]; decide
  refine ⟨l, htr, ?_, ?_⟩
  · unfold tracesAttendance
    rw [lookup_traces_append _ _ hkeys]
    rfl
  · unfold tracesEps
    rw [lookup_traces_append _ _ hkeys]
    rfl

/-- On a valid scenario with positive trial count and nonnegative Q,
`simulate_many` succeeds with the summary built from some successful trial
list. -/
theorem simulate_many_ok_of_valid (ops : RealOps) (Q : ℤ) (sc : Scenario)
    (n seed : Option ℤ) (rt : Bool) (hQ : 0 ≤ Q) (hv : sc.validate = .ok ())
    (hn : ¬ n.getD sc.replications ≤ 0) :
    ∃ l, runTrials ops Q sc (n.getD sc.replications).toNat
        (ops.randomRandom (seed.getD sc.seed)) = .ok l ∧
      simulate_many ops Q sc n seed rt =
        .ok (mkOut ops Q (n.getD sc.replications) (seed.getD sc.seed) sc l ++
          (if rt then [("traces", mkTraces l)] else [])) := by
  obtain ⟨l, hl⟩ := runTrials_ok_of_valid ops Q sc hQ hv
    (n.getD sc.replications).toNat (ops.randomRandom (seed.getD sc.seed))
  refine ⟨l, hl, ?_⟩
  simp only [simulate_many, hv]
  rw [if_neg hn, if_neg (not_lt.mpr hQ)]
  simp only [hl]
  by_cases hrt : rt = true
  · rw [if_pos hrt, if_pos hrt]
  · rw [if_neg hrt, if_neg hrt, List.append_nil]

/-! ### Concrete evaluations on the witness fixtures -/

/-- The witness scenario validates. -/
theorem scw_valid : sc_w.validate = .ok () := by
  norm_num [Scenario.validate, sc_w, REPS_MIN, REPS_MAX, CAPACITY_MIN, CAPACITY_MAX,
    TEMP_MIN_F, TEMP_MAX_F, P_MIN, P_MAX, C_MIN, C_MAX, S_MIN, S_MAX, SEASON_GAMES,
    REPS_DEFAULT, STADIUM_CAPACITY, CAPACITY_DEFAULT, TEMP_IDEAL_F, P_DEFAULT,
    C_DEFAULT, S_DEFAULT, FIXED_COST_PER_GAME]

/-- The witness scenario's attendance multiplier is exactly 1. -/
theorem scw_mult : attendance_multiplier sc_w = 1 := by
  norm_num [attendance_multiplier, sc_w, _win_pct_multiplier, Scenario.team_win_pct,
    Scenario.opp_win_pct, PROMO_BOOST, PLAYOFF_BOOST, RAIN_PENALTY, SNOW_PENALTY,
    TEMP_IDEAL_F, TEMP_PENALTY_PER_10F, TEAM_WIN_BOOST_AT_1, OPPONENT_WIN_BOOST_AT_1,
    max_def]

/-- The witness scenario's capacity, as a rational. -/
theorem scw_cap : (sc_w.stadium_capacity : ℚ) = 60000 := by
  norm_num [sc_w, STADIUM_CAPACITY, CAPACITY_DEFAULT]

/-- Attendance on the witness fixture: the all-zero deviate gives the adjusted
mean, 51600. -/
theorem scw_att : sample_attendance rng0 sc_w = .ok (51600, ⟨fun _ => 0, 1⟩) := by
  unfold sample_attendance
  rw [scw_valid]
  norm_num [scw_cap, scw_mult, RNG.gauss, rng0, _clip, pyRound, BASE_FILL_RATE,
    MIN_STD, A_STD_FRAC, max_def, min_def]

/-- Demand on the witness fixture: 51600 attendees at rate 0.30 with eps 1
gives 15480. -/
theorem scw_demand : sample_demand ops0 rng0 sc_w =
    .ok (15480, 51600, 1, ⟨fun _ => 0, 2⟩) := by
  unfold sample_demand
  rw [scw_att]
  norm_num [sample_epsilon, RNG.lognormvariate, ops0, EPS_SIGMA, R_BASE, pyRound, max_def]

/-- One trial at Q = 0 on the witness fixture. -/
theorem scw_runTrials : runTrials ops0 0 sc_w 1 (ops0.randomRandom 0) =
    .ok [({ Q := 0, D := 15480, sold := 0, leftover := 0, revenue := 0, cost := 0,
            salvage := 0, profit := 0, attendance := 51600 }, 1)] := by
  have h0 : ops0.randomRandom 0 = rng0 := rfl
  unfold runTrials
  rw [h0, scw_demand]
  norm_num [profit_for_game, sc_w, P_DEFAULT, C_DEFAULT, S_DEFAULT, FIXED_COST_PER_GAME,
    max_def, min_def, runTrials, GameResult.mk.injEq]

/-- One trial at Q = 5 on the witness fixture. -/
theorem scw_runTrials5 : runTrials ops0 5 sc_w 1 (ops0.randomRandom 0) =
    .ok [({ Q := 5, D := 15480, sold := 5, leftover := 0, revenue := 30, cost := 15/2,
            salvage := 0, profit := 45/2, attendance := 51600 }, 1)] := by
  have h0 : ops0.randomRandom 0 = rng0 := rfl
  unfold runTrials
  rw [h0, scw_demand]
  norm_num [profit_for_game, sc_w, P_DEFAULT, C_DEFAULT, S_DEFAULT, FIXED_COST_PER_GAME,
    max_def, min_def, runTrials, GameResult.mk.injEq]

/-- The fully evaluated traced summary on the witness fixture at Q = 0. -/
theorem scw_sim : simulate_many ops0 0 sc_w (some 1) (some 0) true = .ok wit_summary := by
  unfold simulate_many
  rw [scw_valid]
  norm_num [Option.getD]
  rw [scw_runTrials]
  norm_num [mkOut, mkTraces, mean, pvariance, listMin, listMax, wit_summary, ops0, sc_w,
    P_DEFAULT, C_DEFAULT, S_DEFAULT, FIXED_COST_PER_GAME]

/-- The fully evaluated untraced summary on the witness fixture at Q = 5. -/
theorem scw_sim5 : simulate_many ops0 5 sc_w (some 1) (some 0) = .ok wit_summary5 := by
  unfold simulate_many
  rw [scw_valid]
  norm_num [Option.getD]
  rw [scw_runTrials5]
  norm_num [mkOut, mean, pvariance, listMin, listMax, wit_summary5, ops0, sc_w,
    P_DEFAULT, C_DEFAULT, S_DEFAULT, FIXED_COST_PER_GAME]

/-- The evaluated one-point grid on the witness fixture. -/
theorem scw_grid5 : evaluate_grid ops0 [5] sc_w (some 1) (some 0) = .ok [wit_summary5] := by
  unfold evaluate_grid
  rw [scw_sim5]
  rfl

/-! ### Claim theorems -/

/-- C1: for every Q ≥ 0, D ≥ 0 and every scenario, `profit_for_game` returns a
GameResult with sold = min(Q, D), leftover = max(Q − D, 0), revenue = price ·
sold, cost = cost · Q, salvage = salvage · leftover and profit = revenue −
cost + salvage − fixed_cost_per_game; in particular (Q=20000, D=15000, price
6.00, cost 1.50, salvage 0.25, fixed 0) gives sold 15000, leftover 5000,
revenue 90000, cost 30000, salvage 1250, profit 61250, and (Q=10000, D=12000)
gives sold 10000, leftover 0, revenue 60000, cost 15000, salvage 0, profit
45000. -/
theorem C1_profit_formula :
    (∀ (Q D att : ℤ) (sc : Scenario), 0 ≤ Q → 0 ≤ D →
      profit_for_game Q D att sc = .ok
        { Q := Q, D := D, sold := min Q D, leftover := max (Q - D) 0,
          revenue := sc.price * ((min Q D : ℤ) : ℚ), cost := sc.cost * (Q : ℚ),
          salvage := sc.salvage * ((max (Q - D) 0 : ℤ) : ℚ),
          profit := sc.price * ((min Q D : ℤ) : ℚ) - sc.cost * (Q : ℚ) +
            sc.salvage * ((max (Q - D) 0 : ℤ) : ℚ) - sc.fixed_cost_per_game,
          attendance := att })
    ∧ profit_for_game 20000 15000 0
        { price := 6, cost := 3/2, salvage := 1/4, fixed_cost_per_game := 0 } =
        .ok ⟨20000, 15000, 15000, 5000, 90000, 30000, 1250, 61250, 0⟩
    ∧ profit_for_game 10000 12000 0
        { price := 6, cost := 3/2, salvage := 1/4, fixed_cost_per_game := 0 } =
        .ok ⟨10000, 12000, 10000, 0, 60000, 15000, 0, 45000, 0⟩ := by
  refine ⟨fun Q D att sc hQ hD => profit_for_game_ok Q D att sc hQ hD, ?_, ?_⟩
  · rw [profit_for_game_ok 20000 15000 0 _ (by norm_num) (by norm_num)]
    norm_num [GameResult.mk.injEq, min_def, max_def]
  · rw [profit_for_game_ok 10000 12000 0 _ (by norm_num) (by norm_num)]
    norm_num [GameResult.mk.injEq, min_def, max_def]

/-- Witness for C1: the general formula applied at the first literal example. -/
theorem C1_profit_formula_witness :
    profit_for_game 20000 15000 0
      { price := 6, cost := 3/2, salvage := 1/4, fixed_cost_per_game := 0 } =
      .ok ⟨20000, 15000, 15000, 5000, 90000, 30000, 1250, 61250, 0⟩ := by
  rw [C1_profit_formula.1 20000 15000 0
    { price := 6, cost := 3/2, salvage := 1/4, fixed_cost_per_game := 0 }
    (by norm_num) (by norm_num)]
  norm_num [GameResult.mk.injEq, min_def, max_def]

/-- C2: common random numbers — for any scenario, seed, trial count and any
two order quantities Q₁, Q₂ ≥ 0, the per-trial attendance and eps traces
produced by `simulate_many` are identical; only the Q-dependent outputs may
differ. -/
theorem C2_common_random_numbers (ops : RealOps) (sc : Scenario) (n seed : Option ℤ)
    (Q₁ Q₂ : ℤ) (h₁ : 0 ≤ Q₁) (h₂ : 0 ≤ Q₂) :
    (simulate_many ops Q₁ sc n seed true).map tracesAttendance
      = (simulate_many ops Q₂ sc n seed true).map tracesAttendance
    ∧ (simulate_many ops Q₁ sc n seed true).map tracesEps
      = (simulate_many ops Q₂ sc n seed true).map tracesEps := by
  cases hval : sc.validate with
  | error e =>
    have e₁ : simulate_many ops Q₁ sc n seed true = .error e := by
      simp only [simulate_many, hval]
    have e₂ : simulate_many ops Q₂ sc n seed true = .error e := by
      simp only [simulate_many, hval]
    rw [e₁, e₂]
    exact ⟨rfl, rfl⟩
  | ok u =>
    cases u
    by_cases hn : n.getD sc.replications ≤ 0
    · have e₁ : simulate_many ops Q₁ sc n seed true =
          .error "n/replications must be > 0" := by
        simp only [simulate_many, hval]
        rw [if_pos hn]
      have e₂ : simulate_many ops Q₂ sc n seed true =
          .error "n/replications must be > 0" := by
        simp only [simulate_many, hval]
        rw [if_pos hn]
      rw [e₁, e₂]
      exact ⟨rfl, rfl⟩
    · obtain ⟨l₁, hl₁, hs₁⟩ :=
        simulate_many_ok_of_valid ops Q₁ sc n seed true h₁ hval hn
      obtain ⟨l₂, hl₂, hs₂⟩ :=
        simulate_many_ok_of_valid ops Q₂ sc n seed true h₂ hval hn
      obtain ⟨l₁', ht₁, ha₁, he₁⟩ := simulate_many_traces ops Q₁ sc n seed _ hs₁
      obtain ⟨l₂', ht₂, ha₂, he₂⟩ := simulate_many_traces ops Q₂ sc n seed _ hs₂
      have hmap := runTrials_map_eq ops Q₁ Q₂ sc _ _ l₁' l₂' ht₁ ht₂
      have hatt : List.map (fun t => t.1.attendance) l₁' =
          List.map (fun t => t.1.attendance) l₂' := by
        have h' := congrArg (List.map (fun x : ℤ × ℤ × ℚ => x.2.1)) hmap
        simp only [List.map_map] at h'
        exact h'
      have heps : List.map (fun t => t.2) l₁' = List.map (fun t => t.2) l₂' := by
        have h' := congrArg (List.map (fun x : ℤ × ℤ × ℚ => x.2.2)) hmap
        simp only [List.map_map] at h'
        exact h'
      simp only [eq_self_iff_true, if_true] at hs₁ hs₂ ha₁ he₁ ha₂ he₂
      rw [hs₁, hs₂]
      constructor
      · simp only [Except.map]
        rw [ha₁, ha₂, hatt]
      · simp only [Except.map]
        rw [he₁, he₂, heps]

/-- Witness for C2: the CRN theorem applied at Q₁ = 0, Q₂ = 1 on the concrete
fixture. -/
theorem C2_common_random_numbers_witness :
    (simulate_many ops0 0 sc_w (some 1) (some 0) true).map tracesAttendance
      = (simulate_many ops0 1 sc_w (some 1) (some 0) true).map tracesAttendance
    ∧ (simulate_many ops0 0 sc_w (some 1) (some 0) true).map tracesEps
      = (simulate_many ops0 1 sc_w (some 1) (some 0) true).map tracesEps :=
  C2_common_random_numbers ops0 sc_w (some 1) (some 0) 0 1 (by norm_num) (by norm_num)

/-- C3: `validate` fails exactly when a §3 invariant is violated, its error
names the first violated invariant in §3 order, and it returns nothing on
success; in particular salvage 2.00 against cost 1.50, rain with snow, and
indoor with rain are each rejected. -/
theorem C3_validate_first_violation :
    (∀ sc : Scenario, sc.validate = .ok () ↔ specFirstViolation sc = none)
    ∧ (∀ (sc : Scenario) (msg : String), sc.validate = .error msg →
        ∃ inv, specFirstViolation sc = some inv ∧ identifies msg inv = true)
    ∧ ({ salvage := 2 } : Scenario).validate =
        .error "salvage cannot exceed cost (would create weird incentives)."
    ∧ ({ rain := true, snow := true } : Scenario).validate =
        .error "rain and snow cannot both be True (pick one)."
    ∧ ({ indoor := true, rain := true } : Scenario).validate =
        .error "Indoor stadium cannot have rain or snow." := by
  refine ⟨?_, ?_, ?_, ?_, ?_⟩
  · intro sc
    have h := validate_agrees sc
    constructor
    · intro hv
      rw [hv] at h
      cases hs : specFirstViolation sc with
      | none => rfl
      | some inv => rw [hs] at h; exact absurd h (by simp [agrees])
    · intro hs
      rw [hs] at h
      cases hv : sc.validate with
      | error e => rw [hv] at h; exact absurd h (by simp [agrees])
      | ok u => cases u; rfl
  · intro sc msg hv
    have h := validate_agrees sc
    rw [hv] at h
    cases hs : specFirstViolation sc with
    | none => rw [hs] at h; exact absurd h (by simp [agrees])
    | some inv =>
      rw [hs] at h
      exact ⟨inv, rfl, by simpa [agrees] using h⟩
  · norm_num [Scenario.validate, REPS_MIN, REPS_MAX, CAPACITY_MIN, CAPACITY_MAX,
      TEMP_MIN_F, TEMP_MAX_F, P_MIN, P_MAX, C_MIN, C_MAX, S_MIN, S_MAX, SEASON_GAMES,
      REPS_DEFAULT, STADIUM_CAPACITY, CAPACITY_DEFAULT, TEMP_IDEAL_F, P_DEFAULT,
      C_DEFAULT, S_DEFAULT, FIXED_COST_PER_GAME]
  · norm_num [Scenario.validate, REPS_MIN, REPS_MAX, CAPACITY_MIN, CAPACITY_MAX,
      TEMP_MIN_F, TEMP_MAX_F, P_MIN, P_MAX, C_MIN, C_MAX, S_MIN, S_MAX, SEASON_GAMES,
      REPS_DEFAULT, STADIUM_CAPACITY, CAPACITY_DEFAULT, TEMP_IDEAL_F, P_DEFAULT,
      C_DEFAULT, S_DEFAULT, FIXED_COST_PER_GAME]
  · norm_num [Scenario.validate, REPS_MIN, REPS_MAX, CAPACITY_MIN, CAPACITY_MAX,
      TEMP_MIN_F, TEMP_MAX_F, P_MIN, P_MAX, C_MIN, C_MAX, S_MIN, S_MAX, SEASON_GAMES,
      REPS_DEFAULT, STADIUM_CAPACITY, CAPACITY_DEFAULT, TEMP_IDEAL_F, P_DEFAULT,
      C_DEFAULT, S_DEFAULT, FIXED_COST_PER_GAME]

/-- Witness for C3: the success direction applied to the concrete valid
scenario. -/
theorem C3_validate_first_violation_witness : sc_w.validate = .ok () :=
  (C3_validate_first_violation.1 sc_w).mpr (by
    norm_num [specFirstViolation, sc_w, REPS_MIN, REPS_MAX, CAPACITY_MIN, CAPACITY_MAX,
      TEMP_MIN_F, TEMP_MAX_F, P_MIN, P_MAX, C_MIN, C_MAX, S_MIN, S_MAX, SEASON_GAMES,
      REPS_DEFAULT, STADIUM_CAPACITY, CAPACITY_DEFAULT, TEMP_IDEAL_F, P_DEFAULT,
      C_DEFAULT, S_DEFAULT, FIXED_COST_PER_GAME])

/-- C4: `sample_demand` returns (demand, attendance, noise) where attendance
comes from `sample_attendance`, noise from `sample_epsilon` on the advanced
generator, demand = round(attendance · R_BASE · noise) clamped below at 0, the
demand is a nonnegative integer and the noise is positive (the exponential of
a real). -/
theorem C4_sample_demand (ops : RealOps) (rng : RNG) (sc : Scenario)
    (out : ℤ × ℤ × ℚ × RNG) (hexp : ∀ x, 0 < ops.rexp x)
    (h : sample_demand ops rng sc = .ok out) :
    (sample_attendance rng sc).map (fun p => (p.1, sample_epsilon ops p.2)) =
      .ok (out.2.1, out.2.2.1, out.2.2.2)
    ∧ out.1 = max 0 (pyRound ((out.2.1 : ℚ) * R_BASE * out.2.2.1))
    ∧ 0 ≤ out.1 ∧ 0 < out.2.2.1 := by
  unfold sample_demand at h
  cases ha : sample_attendance rng sc with
  | error e => rw [ha] at h; exact Except.noConfusion h
  | ok p =>
    obtain ⟨a, r₁⟩ := p
    simp only [ha] at h
    injection h with h
    subst h
    refine ⟨?_, ?_, ?_, ?_⟩
    · rfl
    · exact pyRound_max_zero _
    · exact pyRound_nonneg (le_max_left _ _)
    · exact hexp _

/-- Witness for C4: the demand theorem applied on the concrete fixture, where
it returns demand 15480, attendance 51600 and noise 1. -/
theorem C4_sample_demand_witness :
    (sample_attendance rng0 sc_w).map (fun p => (p.1, sample_epsilon ops0 p.2)) =
      .ok (51600, 1, ⟨fun _ => 0, 2⟩)
    ∧ (15480 : ℤ) = max 0 (pyRound ((51600 : ℚ) * R_BASE * 1))
    ∧ (0 : ℤ) ≤ 15480 ∧ (0 : ℚ) < 1 :=
  C4_sample_demand ops0 rng0 sc_w (15480, 51600, 1, ⟨fun _ => 0, 2⟩)
    (fun _ => one_pos) scw_demand

/-- C5: on a scenario that validates, `sample_attendance` returns an integer
a with 0 ≤ a ≤ stadium_capacity, obtained by drawing one Normal sample with
mean capacity · BASE_FILL_RATE · attendance_multiplier and standard deviation
max(MIN_STD, capacity · BASE_FILL_RATE · A_STD_FRAC), clamping it to
[0, capacity], and rounding to the nearest integer. -/
theorem C5_sample_attendance (rng : RNG) (sc : Scenario) (p : ℤ × RNG)
    (h : sample_attendance rng sc = .ok p) :
    0 ≤ p.1 ∧ p.1 ≤ sc.stadium_capacity ∧
    p.1 = pyRound (_clip (rng.gauss ((sc.stadium_capacity : ℚ) * BASE_FILL_RATE *
        attendance_multiplier sc)
      (max MIN_STD ((sc.stadium_capacity : ℚ) * BASE_FILL_RATE * A_STD_FRAC))).1
      0 (sc.stadium_capacity : ℚ)) := by
  unfold sample_attendance at h
  have hv : sc.validate = .ok () := by
    cases hval : sc.validate with
    | error e => rw [hval] at h; exact Except.noConfusion h
    | ok u => cases u; rfl
  simp only [hv] at h
  obtain ⟨hcapmin, -⟩ := validate_ok_cap hv
  have hcap0 : (0 : ℚ) ≤ (sc.stadium_capacity : ℚ) := by
    have h0 : (0 : ℤ) ≤ sc.stadium_capacity :=
      le_trans (by norm_num [CAPACITY_MIN]) hcapmin
    exact_mod_cast h0
  injection h with h
  subst h
  refine ⟨pyRound_nonneg (le_max_left _ _), ?_, rfl⟩
  exact pyRound_le (max_le hcap0 (min_le_right _ _))

/-- Witness for C5: the attendance theorem applied on the concrete fixture,
where the draw evaluates to 51600 ≤ 60000. -/
theorem C5_sample_attendance_witness :
    0 ≤ (51600 : ℤ) ∧ (51600 : ℤ) ≤ sc_w.stadium_capacity ∧
    (51600 : ℤ) = pyRound (_clip (rng0.gauss ((sc_w.stadium_capacity : ℚ) *
        BASE_FILL_RATE * attendance_multiplier sc_w)
      (max MIN_STD ((sc_w.stadium_capacity : ℚ) * BASE_FILL_RATE * A_STD_FRAC))).1
      0 (sc_w.stadium_capacity : ℚ)) :=
  C5_sample_attendance rng0 sc_w (51600, ⟨fun _ => 0, 1⟩) scw_att

/-- C6 counterexample: the claimed identity `_win_pct_multiplier(1.0, b) = b`
for EVERY b fails at b = 0.5, where the default floor 0.80 kicks in:
`_win_pct_multiplier 1 (1/2)` is 4/5, not 1/2. -/
theorem C6_counterexample :
    _win_pct_multiplier 1 (1/2) = 4/5 ∧ _win_pct_multiplier 1 (1/2) ≠ 1/2 := by
  norm_num [_win_pct_multiplier, max_def]

/-- C6 (amended): the win-percentage multiplier is a centered linear scaling
clamped below: f(0.5, b) = 1, f(1, b) = max(0.80, b) (so = b whenever
b ≥ 0.80), f(0, b, m) = max(m, 2 − b); in particular f(0.5, 1.10) = 1,
f(1, 1.10) = 1.10 and f(0, 1.10, m) = max(m, 0.90); and the result never
falls below min_mult for any win_pct in [0, 1]. -/
theorem C6_win_pct_multiplier_amended :
    (∀ b : ℚ, _win_pct_multiplier (1/2) b = 1)
    ∧ (∀ b : ℚ, _win_pct_multiplier 1 b = max (4/5) b)
    ∧ (∀ b m : ℚ, _win_pct_multiplier 0 b m = max m (2 - b))
    ∧ _win_pct_multiplier (1/2) (11/10) = 1
    ∧ _win_pct_multiplier 1 (11/10) = 11/10
    ∧ (∀ m : ℚ, _win_pct_multiplier 0 (11/10) m = max m (9/10))
    ∧ (∀ w b m : ℚ, 0 ≤ w → w ≤ 1 → m ≤ _win_pct_multiplier w b m) := by
  refine ⟨?_, ?_, ?_, ?_, ?_, ?_, ?_⟩
  · intro b
    have hb : 1 + ((1:ℚ)/2 - 1/2) * 2 * (b - 1) = 1 := by ring
    simp only [_win_pct_multiplier, hb]
    norm_num [max_def]
  · intro b
    have hb : 1 + ((1:ℚ) - 1/2) * 2 * (b - 1) = b := by ring
    simp only [_win_pct_multiplier, hb]
  · intro b m
    have hb : 1 + ((0:ℚ) - 1/2) * 2 * (b - 1) = 2 - b := by ring
    simp only [_win_pct_multiplier, hb]
  · norm_num [_win_pct_multiplier, max_def]
  · norm_num [_win_pct_multiplier, max_def]
  · intro m
    have hb : 1 + ((0:ℚ) - 1/2) * 2 * ((11:ℚ)/10 - 1) = 9/10 := by ring
    simp only [_win_pct_multiplier, hb]
  · intro w b m _ _
    exact le_max_left _ _

/-- Witness for C6 (amended): the floor conjunct applied at win_pct = 0.5,
boost 1.10, floor 0.85. -/
theorem C6_win_pct_multiplier_amended_witness :
    (17/20 : ℚ) ≤ _win_pct_multiplier (1/2) (11/10) (17/20) :=
  C6_win_pct_multiplier_amended.2.2.2.2.2.2 (1/2) (11/10) (17/20)
    (by norm_num) (by norm_num)

/-- C7 counterexample: a concrete traced run's summary carries the key
"n games" (with a space) and no key "n_games", refuting the claimed field
name. -/
theorem C7_counterexample :
    simulate_many ops0 0 sc_w (some 1) (some 0) true = .ok wit_summary
    ∧ "n games" ∈ wit_summary.map Prod.fst
    ∧ "n_games" ∉ wit_summary.map Prod.fst := by
  refine ⟨scw_sim, ?_, ?_⟩ <;> decide

/-- C7 (amended): a successful `simulate_many` summary carries exactly the
keys Q, "n games" (with a space, not the claimed n_games), seed, avg_profit,
sd_profit, min_profit, max_profit, avg_attendance, avg_demand, avg_sold,
avg_leftover, stockout_rate, the echoed price, cost, salvage,
fixed_cost_per_game, and, when traces are requested, a traces entry whose
profit, demand, attendance and eps series all have length n. -/
theorem C7_summary_fields_amended (ops : RealOps) (Q : ℤ) (sc : Scenario)
    (n seed : Option ℤ) (rt : Bool) (s : Summary)
    (h : simulate_many ops Q sc n seed rt = .ok s) :
    s.map Prod.fst =
      ["Q", "n games", "seed", "avg_profit", "sd_profit", "min_profit", "max_profit",
       "avg_attendance", "avg_demand", "avg_sold", "avg_leftover", "stockout_rate",
       "price", "cost", "salvage", "fixed_cost_per_game"] ++
        (if rt then ["traces"] else [])
    ∧ (rt = true → tracesLengths s =
        some ((n.getD sc.replications).toNat, (n.getD sc.replications).toNat,
          (n.getD sc.replications).toNat, (n.getD sc.replications).toNat)) := by
  obtain ⟨l, htr, hs⟩ := simulate_many_shape ops Q sc n seed rt s h
  subst hs
  have hlen := runTrials_length ops Q sc _ _ l htr
  constructor
  · rw [List.map_append, mkOut_keys]
    by_cases hrt : rt = true
    · rw [if_pos hrt, if_pos hrt]
      rfl
    · rw [if_neg hrt, if_neg hrt]
      rfl
  · intro hrt
    rw [if_pos hrt]
    unfold tracesLengths
    rw [lookup_traces_append _ _ (by rw [mkOut_keys]; decide)]
    simp [mkTraces, hlen]

/-- Witness for C7 (amended): applied to the concretely evaluated traced
summary, whose four trace series each have length 1. -/
theorem C7_summary_fields_amended_witness :
    wit_summary.map Prod.fst =
      ["Q", "n games", "seed", "avg_profit", "sd_profit", "min_profit", "max_profit",
       "avg_attendance", "avg_demand", "avg_sold", "avg_leftover", "stockout_rate",
       "price", "cost", "salvage", "fixed_cost_per_game"] ++
        (if true then ["traces"] else [])
    ∧ (true = true → tracesLengths wit_summary = some (1, 1, 1, 1)) :=
  C7_summary_fields_amended ops0 0 sc_w (some 1) (some 0) true wit_summary scw_sim

/-- C8: `evaluate_grid` returns exactly one summary per element of Q_values,
in input order — the i-th summary's Q entry is the i-th input value —
regardless of which Q has the best average profit. -/
theorem C8_grid_order (ops : RealOps) (Qs : List ℤ) (sc : Scenario)
    (n seed : Option ℤ) (l : List Summary)
    (h : evaluate_grid ops Qs sc n seed = .ok l) :
    l.length = Qs.length ∧
    l.map (fun s => s.lookup "Q") = Qs.map (fun Q => some (SVal.int Q)) := by
  induction Qs generalizing l with
  | nil =>
    unfold evaluate_grid at h
    injection h with h
    subst h
    exact ⟨rfl, rfl⟩
  | cons Q rest ih =>
    unfold evaluate_grid at h
    split at h
    · exact Except.noConfusion h
    rename_i s hs
    split at h
    · exact Except.noConfusion h
    rename_i tl htl
    injection h with h
    subst h
    obtain ⟨hlen, hmap⟩ := ih tl htl
    refine ⟨by simp [hlen], ?_⟩
    simp only [List.map_cons, hmap, simulate_many_lookup_Q hs]

/-- Witness for C8: the grid-order theorem applied to the concretely evaluated
one-point grid. -/
theorem C8_grid_order_witness :
    ([wit_summary5] : List Summary).length = ([5] : List ℤ).length ∧
    ([wit_summary5] : List Summary).map (fun s => s.lookup "Q") =
      ([5] : List ℤ).map (fun Q => some (SVal.int Q)) :=
  C8_grid_order ops0 [5] sc_w (some 1) (some 0) [wit_summary5] scw_grid5

/-- C9 counterexample: the core accepts an indoor scenario whose stored
temperature is 30 °F: `validate` succeeds with `temp_f` unchanged and not
equal to TEMP_IDEAL_F, so the data model does NOT force the temperature. -/
theorem C9_counterexample :
    scIndoor30.validate = .ok () ∧ scIndoor30.indoor = true ∧
    scIndoor30.temp_f ≠ TEMP_IDEAL_F := by
  refine ⟨?_, rfl, ?_⟩
  · norm_num [Scenario.validate, scIndoor30, REPS_MIN, REPS_MAX, CAPACITY_MIN,
      CAPACITY_MAX, TEMP_MIN_F, TEMP_MAX_F, P_MIN, P_MAX, C_MIN, C_MAX, S_MIN, S_MAX,
      SEASON_GAMES, REPS_DEFAULT, STADIUM_CAPACITY, CAPACITY_DEFAULT, TEMP_IDEAL_F,
      P_DEFAULT, C_DEFAULT, S_DEFAULT, FIXED_COST_PER_GAME]
  · norm_num [scIndoor30, TEMP_IDEAL_F]

/-- C9 (amended): the core does not force `temp_f` to TEMP_IDEAL_F when
indoor; instead the temperature is ignored: `attendance_multiplier` is
independent of `temp_f` whenever `indoor` is true (and TEMP_IDEAL_F is only
the default value of `temp_f`). -/
theorem C9_indoor_temp_amended :
    (∀ (sc : Scenario) (t : ℚ), sc.indoor = true →
      attendance_multiplier { sc with temp_f := t } = attendance_multiplier sc)
    ∧ ({} : Scenario).temp_f = TEMP_IDEAL_F := by
  refine ⟨?_, rfl⟩
  intro sc t h
  simp [attendance_multiplier, h]

/-- Witness for C9 (amended): the indoor 30 °F scenario's multiplier is
unchanged if its temperature is overwritten with 0 °F. -/
theorem C9_indoor_temp_amended_witness :
    attendance_multiplier { scIndoor30 with temp_f := 0 } =
      attendance_multiplier scIndoor30 :=
  C9_indoor_temp_amended.1 scIndoor30 0 rfl

/-- C10: `evaluate_grid` on an empty Q collection returns an empty list and
raises no error for EVERY scenario, because validation happens only inside the
per-Q `simulate_many` calls — in particular also for the invalid
rain-and-snow scenario that `validate` rejects. -/
theorem C10_empty_grid :
    (∀ (ops : RealOps) (sc : Scenario) (n seed : Option ℤ),
      evaluate_grid ops [] sc n seed = .ok [])
    ∧ ({ rain := true, snow := true } : Scenario).validate =
        .error "rain and snow cannot both be True (pick one)."
    ∧ (∀ (ops : RealOps) (n seed : Option ℤ),
      evaluate_grid ops [] { rain := true, snow := true } n seed = .ok []) := by
  refine ⟨fun _ _ _ _ => rfl, ?_, fun _ _ _ => rfl⟩
  norm_num [Scenario.validate, REPS_MIN, REPS_MAX, CAPACITY_MIN, CAPACITY_MAX,
    TEMP_MIN_F, TEMP_MAX_F, P_MIN, P_MAX, C_MIN, C_MAX, S_MIN, S_MAX, SEASON_GAMES,
    REPS_DEFAULT, STADIUM_CAPACITY, CAPACITY_DEFAULT, TEMP_IDEAL_F, P_DEFAULT,
    C_DEFAULT, S_DEFAULT, FIXED_COST_PER_GAME]

end Hotdogs
